import Mathlib

/-!
Verification of the KPI-mesh MQTT mediator (`wirepas_backend_client/test/kpi_mesh.py`).

Shallow embedding of `MultiMessageMqttObserver`: the three topic callbacks
(`on_data_received`, `on_status_received`, `on_response_cb`) are modelled as
pure functions from the readiness gate and the inbound message to the lists of
items put on the three channels (`rx_queue` toward the broker,
`gw_status_queue` toward the read model, `storage_queue` toward storage) and
the debug log calls made.  A trace semantics folds the handlers over a list of
inbound messages, and a small step system models the daemon gate lifecycle.
-/

/-- Gateway state, from `wirepas_messaging.gateway.api.GatewayState`
(a two-valued enum). -/
inductive GatewayState where
  | online
  | offline
deriving DecidableEq, Repr

/-- A decoded `gw-event/status` payload: `message.gw_id` and `message.state`. -/
structure StatusEvent where
  gw_id : String
  state : GatewayState
deriving DecidableEq, Repr

/-- One per-sink configuration record of a `get_configs` response
(`config` in the loop of `on_response_cb`).  `network_address` is the value
of `int(config["network_address"])`; `payload` stands for the remaining,
uninspected fields of the config dict. -/
structure SinkConfig where
  network_address : Int
  payload : String
deriving DecidableEq, Repr

/-- A decoded `gw-response/get_configs` payload: `message.gw_id` and
`message.configs` in the order received. -/
structure ConfigResponse where
  gw_id : String
  configs : List SinkConfig
deriving DecidableEq, Repr

/-- An item put on `gw_status_queue`: either the synthesized offline dict
`\x7b"gw_id": ..., "configs": []\x7d` or a full `message.__dict__` of a
response. -/
structure GatewayStatusRecord where
  gw_id : String
  configs : List SinkConfig
deriving DecidableEq, Repr

/-- `message.__dict__` of a decoded response: the full response forwarded
verbatim. -/
def ConfigResponse.asDict (r : ConfigResponse) : GatewayStatusRecord :=
  { gw_id := r.gw_id, configs := r.configs }

/-- A `get_configs` request built by
`mqtt_topics.request_message("get_configs", gw_id=...)` and put on
`rx_queue` (which sends to the MQTT broker). -/
structure ConfigRequest where
  gw_id : String
deriving DecidableEq, Repr

/-- An undecoded data payload forwarded verbatim by `on_data_received`. -/
abbrev DataMessage := String

/-- The `network_id` subscription filter fixed at construction: the MQTT
wildcard string `"+"` or a specific numeric network identifier (the code
compares via `int(config["network_address"]) == int(network_id)`). -/
inductive NetworkFilter where
  | wildcard
  | specific (nid : Int)
deriving DecidableEq, Repr

/-- One call site of `self.logger.debug` in the three handlers. -/
inductive LogEvent where
  | dataIgnoredWaitingStart
  | statusIgnoredWaitingStart
  | responseIgnoredWaitingStart
  | configReceived (gw_id : String)
  | configNotProcessed (gw_id : String)
deriving DecidableEq, Repr

/-- The construction-time configuration of `MultiMessageMqttObserver` that
the handlers consult: the `network_id` filter captured by
`generate_got_gw_configs_cb`, and whether `storage_queue` was passed
(`kwargs.pop("storage_queue", None)` — `has_storage_queue = false` models
`storage_queue is None`). -/
structure MultiMessageMqttObserver where
  network_id : NetworkFilter
  has_storage_queue : Bool
deriving DecidableEq, Repr

/-- The observable effect of one handler invocation: the items put on each
queue, in order, plus the debug log calls made. -/
structure Emissions where
  rx_queue : List ConfigRequest
  gw_status_queue : List GatewayStatusRecord
  storage_queue : List DataMessage
  logs : List LogEvent
deriving DecidableEq, Repr

/-- No puts, no logs. -/
def Emissions.empty : Emissions :=
  { rx_queue := [], gw_status_queue := [], storage_queue := [], logs := [] }

/-- Concatenation of effects of consecutive invocations. -/
def Emissions.append (a b : Emissions) : Emissions :=
  { rx_queue := a.rx_queue ++ b.rx_queue
    gw_status_queue := a.gw_status_queue ++ b.gw_status_queue
    storage_queue := a.storage_queue ++ b.storage_queue
    logs := a.logs ++ b.logs }

/-- `on_data_received` (kpi_mesh.py lines 92–102): if the start signal is
set, put the message on `storage_queue` when one was provided; otherwise
log that the data is ignored. -/
def on_data_received (self : MultiMessageMqttObserver) (start_signal : Bool)
    (message : DataMessage) : Emissions :=
  if start_signal then
    if self.has_storage_queue then
      { Emissions.empty with storage_queue := [message] }
    else
      Emissions.empty
  else
    { Emissions.empty with logs := [LogEvent.dataIgnoredWaitingStart] }

/-- `on_status_received` (kpi_mesh.py lines 110–136): if the start signal is
set, decode the status event; on `ONLINE` put a `get_configs` request for the
gateway of the event on `rx_queue`; otherwise put the synthesized offline dict on
`gw_status_queue`.  If the signal is unset, log and drop. -/
def on_status_received (start_signal : Bool) (message : StatusEvent) :
    Emissions :=
  if start_signal then
    if message.state = GatewayState.online then
      { Emissions.empty with rx_queue := [{ gw_id := message.gw_id }] }
    else
      { Emissions.empty with
          gw_status_queue := [{ gw_id := message.gw_id, configs := [] }] }
  else
    { Emissions.empty with logs := [LogEvent.statusIgnoredWaitingStart] }

/-- The `for config in message.configs` loop of `on_response_cb`
(kpi_mesh.py lines 153–165): returns the list of puts on `gw_status_queue`
and the final value of `configuration_processed`.  With a specific
`network_id`, the first config whose `network_address` equals the filter
causes one put of the full response dict and a `break`; with the wildcard
`"+"`, every config causes a put of the full response dict. -/
def processConfigs (network_id : NetworkFilter) (messageDict : GatewayStatusRecord) :
    List SinkConfig → List GatewayStatusRecord × Bool
  | [] => ([], false)
  | config :: rest =>
    match network_id with
    | NetworkFilter.specific nid =>
      if config.network_address = nid then
        ([messageDict], true)
      else
        processConfigs network_id messageDict rest
    | NetworkFilter.wildcard =>
      let tail := processConfigs network_id messageDict rest
      (messageDict :: tail.1, true)

/-- `on_response_cb` (kpi_mesh.py lines 145–184): if the start signal is set,
decode the response, run the filter loop, and log whether the configuration
was processed; if not set, log and drop. -/
def on_response_cb (self : MultiMessageMqttObserver) (start_signal : Bool)
    (message : ConfigResponse) : Emissions :=
  if start_signal then
    let scan := processConfigs self.network_id message.asDict message.configs
    { Emissions.empty with
        gw_status_queue := scan.1
        logs := [if scan.2 then LogEvent.configReceived message.gw_id
                 else LogEvent.configNotProcessed message.gw_id] }
  else
    { Emissions.empty with logs := [LogEvent.responseIgnoredWaitingStart] }

/-- An inbound MQTT delivery, dispatched to the handler registered for its
topic class in `message_subscribe_handlers`. -/
inductive InMessage where
  | data (payload : DataMessage)
  | status (event : StatusEvent)
  | response (r : ConfigResponse)
deriving DecidableEq, Repr

/-- Topic dispatch: each delivery invokes exactly one of the three handlers. -/
def handleMessage (self : MultiMessageMqttObserver) (start_signal : Bool) :
    InMessage → Emissions
  | InMessage.data payload => on_data_received self start_signal payload
  | InMessage.status event => on_status_received start_signal event
  | InMessage.response r => on_response_cb self start_signal r

/-- The accumulated effect of delivering a list of messages in order while
the gate holds the given value. -/
def runTrace (self : MultiMessageMqttObserver) (start_signal : Bool)
    (msgs : List InMessage) : Emissions :=
  msgs.foldl (fun acc msg => acc.append (handleMessage self start_signal msg))
    Emissions.empty

/-- An observer configured as in `main`: a specific numeric network filter
and a storage queue wired by the daemon. -/
def kpiObserver : MultiMessageMqttObserver :=
  { network_id := NetworkFilter.specific 2, has_storage_queue := true }

/-- Appending the empty effect on the left is the identity. -/
theorem Emissions.empty_append (e : Emissions) :
    Emissions.empty.append e = e := by
  cases e
  simp [Emissions.append, Emissions.empty]

/-- Appending the empty effect on the right is the identity. -/
theorem Emissions.append_empty (e : Emissions) :
    e.append Emissions.empty = e := by
  cases e
  simp [Emissions.append, Emissions.empty]

/-- Effect concatenation is associative. -/
theorem Emissions.append_assoc (a b c : Emissions) :
    (a.append b).append c = a.append (b.append c) := by
  cases a
  cases b
  cases c
  simp [Emissions.append]

/-- Folding handler effects from any initial accumulator factors through the
fold from the empty accumulator. -/
theorem foldl_emissions_factor (f : InMessage → Emissions) (init : Emissions)
    (l : List InMessage) :
    List.foldl (fun acc msg => acc.append (f msg)) init l
      = init.append
          (List.foldl (fun acc msg => acc.append (f msg)) Emissions.empty l) := by
  induction l generalizing init with
  | nil => simp [Emissions.append_empty]
  | cons x xs ih =>
    simp only [List.foldl_cons]
    rw [ih (init.append (f x)), ih (Emissions.empty.append (f x)),
      Emissions.empty_append, Emissions.append_assoc]

/-- Delivering one more message appends exactly the effect of the handler on
that message, whatever was delivered before. -/
theorem runTrace_snoc (self : MultiMessageMqttObserver) (g : Bool)
    (msgs : List InMessage) (msg : InMessage) :
    runTrace self g (msgs ++ [msg])
      = (runTrace self g msgs).append (handleMessage self g msg) := by
  simp only [runTrace, List.foldl_append, List.foldl_cons, List.foldl_nil]

/-- With a specific filter, a scan over configs none of which carry the
filtered network address emits nothing and leaves the processed flag false. -/
theorem processConfigs_specific_no_match (nid : Int) (d : GatewayStatusRecord)
    (l : List SinkConfig) (h : ∀ x ∈ l, x.network_address ≠ nid) :
    processConfigs (NetworkFilter.specific nid) d l = ([], false) := by
  induction l with
  | nil => rfl
  | cons c rest ih =>
    simp only [processConfigs]
    rw [if_neg (h c (by simp))]
    exact ih fun x hx => h x (by simp [hx])

/-- With a specific filter, the scan stops at the first config carrying the
filtered network address: one emission of the full dict, whatever follows. -/
theorem processConfigs_specific_first_match (nid : Int)
    (d : GatewayStatusRecord) (pre : List SinkConfig) (c : SinkConfig)
    (post : List SinkConfig) (hpre : ∀ x ∈ pre, x.network_address ≠ nid)
    (hc : c.network_address = nid) :
    processConfigs (NetworkFilter.specific nid) d (pre ++ c :: post)
      = ([d], true) := by
  induction pre with
  | nil => simp [processConfigs, hc]
  | cons a rest ih =>
    simp only [List.cons_append, processConfigs]
    rw [if_neg (hpre a (by simp))]
    exact ih fun x hx => hpre x (by simp [hx])

/-- With the wildcard filter, the scan emits the full dict once per config
and the processed flag is true exactly when the config list is nonempty. -/
theorem processConfigs_wildcard (d : GatewayStatusRecord)
    (l : List SinkConfig) :
    processConfigs NetworkFilter.wildcard d l
      = (List.replicate l.length d, !l.isEmpty) := by
  induction l with
  | nil => rfl
  | cons c rest ih => simp [processConfigs, ih, List.replicate]

/-- Modelled from the spec: the `Daemon` and the `start_signal` event of the
observer (set once by `daemon.start(set_start_signal=True)`) are not among
the sources here, only their reader `MultiMessageMqttObserver` is.  Per the
spec the Readiness Gate is initially unset, set once after all tasks run,
and never unset; stopping the registry does not clear it.  A step either
sets the gate (start), stops the registry (leaving the gate), or delivers
one inbound message to the dispatcher, which observes the current gate. -/
inductive SystemStep where
  | start
  | stop
  | deliver (msg : InMessage)
deriving DecidableEq, Repr

/-- The gate value together with everything emitted so far. -/
structure SystemState where
  gateSet : Bool
  emitted : Emissions
deriving DecidableEq, Repr

/-- Before startup: gate unset, nothing emitted. -/
def initialState : SystemState :=
  { gateSet := false, emitted := Emissions.empty }

/-- One step of the modelled system. -/
def stepSystem (self : MultiMessageMqttObserver) (s : SystemState) :
    SystemStep → SystemState
  | SystemStep.start => { s with gateSet := true }
  | SystemStep.stop => s
  | SystemStep.deliver msg =>
    { s with emitted := s.emitted.append (handleMessage self s.gateSet msg) }

/-- Running a list of steps in order. -/
def runSystem (self : MultiMessageMqttObserver) (s : SystemState)
    (steps : List SystemStep) : SystemState :=
  steps.foldl (stepSystem self) s

/-- No single step clears the gate. -/
theorem stepSystem_gate_mono (self : MultiMessageMqttObserver)
    (s : SystemState) (step : SystemStep) (h : s.gateSet = true) :
    (stepSystem self s step).gateSet = true := by
  cases step <;> simp [stepSystem, h]

/-- An observer configured with the wildcard filter. -/
def wildcardObserver : MultiMessageMqttObserver :=
  { network_id := NetworkFilter.wildcard, has_storage_queue := true }

/-- The three-sink response of the spec test vectors: network addresses
1, 2, 2. -/
def sampleResponse : ConfigResponse :=
  { gw_id := "gw"
    configs := [{ network_address := 1, payload := "a" },
      { network_address := 2, payload := "b" },
      { network_address := 2, payload := "c" }] }

/-- Claim C1: for a StatusEvent delivered after the gate is set, a
ConfigRequest is issued iff the state is ONLINE; for an ONLINE event the
handler publishes exactly one request carrying the gateway id of the event
on the broker-bound queue and emits no GatewayStatusRecord. -/
theorem C1_online_iff_request (event : StatusEvent) :
    ((on_status_received true event).rx_queue ≠ []
        ↔ event.state = GatewayState.online)
    ∧ (event.state = GatewayState.online →
        (on_status_received true event).rx_queue = [{ gw_id := event.gw_id }]
          ∧ (on_status_received true event).gw_status_queue = []) := by
  cases h : event.state <;>
    simp [on_status_received, h, Emissions.empty]

/-- C1 at a concrete ONLINE event. -/
theorem C1_online_iff_request_witness :
    (on_status_received true
          { gw_id := "gw1", state := GatewayState.online }).rx_queue
        = [{ gw_id := "gw1" }]
      ∧ (on_status_received true
          { gw_id := "gw1", state := GatewayState.online }).gw_status_queue
        = [] :=
  (C1_online_iff_request { gw_id := "gw1", state := GatewayState.online }).2 rfl

/-- Claim C2: with a specific network filter, after the gate is set, the
response handler forwards the entire response once on the first config whose
network address equals the filter; configs after the first match never
affect the scan; with no matching config nothing is emitted. -/
theorem C2_specific_first_match (self : MultiMessageMqttObserver) (nid : Int)
    (hm : self.network_id = NetworkFilter.specific nid)
    (response : ConfigResponse) :
    ((∀ c ∈ response.configs, c.network_address ≠ nid) →
        (on_response_cb self true response).gw_status_queue = [])
    ∧ (∀ pre c post, response.configs = pre ++ c :: post →
        (∀ x ∈ pre, x.network_address ≠ nid) → c.network_address = nid →
        (on_response_cb self true response).gw_status_queue
            = [response.asDict]
          ∧ ∀ post' : List SinkConfig,
              processConfigs (NetworkFilter.specific nid) response.asDict
                  (pre ++ c :: post')
                = ([response.asDict], true)) := by
  constructor
  · intro h
    simp [on_response_cb, hm, processConfigs_specific_no_match nid _ _ h]
  · intro pre c post hconf hpre hc
    constructor
    · simp [on_response_cb, hm, hconf,
        processConfigs_specific_first_match nid _ pre c post hpre hc]
    · intro post'
      exact processConfigs_specific_first_match nid _ pre c post' hpre hc

/-- C2 at the test vector: sinks with network addresses 1, 2, 2 and filter 2
give exactly one emission of the full response. -/
theorem C2_specific_first_match_witness :
    (on_response_cb kpiObserver true sampleResponse).gw_status_queue
      = [sampleResponse.asDict] :=
  ((C2_specific_first_match kpiObserver 2 rfl sampleResponse).2
    [{ network_address := 1, payload := "a" }]
    { network_address := 2, payload := "b" }
    [{ network_address := 2, payload := "c" }]
    rfl (by decide) rfl).1

/-- Claim C3: with the wildcard filter, after the gate is set, the response
handler forwards the entire response once per config: the emission count
equals the number of configs and every emission is the full response dict. -/
theorem C3_wildcard_duplication (self : MultiMessageMqttObserver)
    (hm : self.network_id = NetworkFilter.wildcard)
    (response : ConfigResponse) :
    (on_response_cb self true response).gw_status_queue
        = List.replicate response.configs.length response.asDict
      ∧ (on_response_cb self true response).gw_status_queue.length
        = response.configs.length := by
  constructor <;> simp [on_response_cb, hm, processConfigs_wildcard]

/-- C3 at the test vector: three sinks under the wildcard give three
identical emissions of the full response. -/
theorem C3_wildcard_duplication_witness :
    (on_response_cb wildcardObserver true sampleResponse).gw_status_queue
      = List.replicate 3 sampleResponse.asDict :=
  (C3_wildcard_duplication wildcardObserver rfl sampleResponse).1

/-- Claim C4: for an OFFLINE StatusEvent delivered after the gate is set,
exactly one GatewayStatusRecord with the gateway id of the event and empty
configs is put on the status queue, and no ConfigRequest is published. -/
theorem C4_offline_synthesis (event : StatusEvent)
    (h : event.state = GatewayState.offline) :
    on_status_received true event =
      { Emissions.empty with
          gw_status_queue := [{ gw_id := event.gw_id, configs := [] }] } := by
  simp [on_status_received, h]

/-- C4 at a concrete OFFLINE event. -/
theorem C4_offline_synthesis_witness :
    on_status_received true { gw_id := "gw1", state := GatewayState.offline } =
      { Emissions.empty with
          gw_status_queue := [{ gw_id := "gw1", configs := [] }] } :=
  C4_offline_synthesis { gw_id := "gw1", state := GatewayState.offline } rfl

/-- Claim C5: any message of any topic class delivered while the gate is
unset produces no put on any queue and no outbound request. -/
theorem C5_pre_gate_drop (self : MultiMessageMqttObserver) (msg : InMessage) :
    (handleMessage self false msg).rx_queue = []
      ∧ (handleMessage self false msg).gw_status_queue = []
      ∧ (handleMessage self false msg).storage_queue = [] := by
  cases msg <;>
    simp [handleMessage, on_data_received, on_status_received, on_response_cb,
      Emissions.empty]

/-- Claim C6 fails as stated: an ONLINE StatusEvent delivered after the gate
is set, with no response arriving, yields zero GatewayStatusRecords on the
status queue, so not every observed StatusEvent leads to an emission. -/
theorem C6_counterexample :
    (runTrace kpiObserver true
          [InMessage.status { gw_id := "gw1", state := GatewayState.online }]
        ).gw_status_queue = []
      ∧ ¬(1 ≤ (runTrace kpiObserver true
          [InMessage.status { gw_id := "gw1", state := GatewayState.online }]
        ).gw_status_queue.length) := by
  constructor
  · rfl
  · decide

/-- Claim C6 amended: after the gate is set, a GatewayStatusRecord is
emitted for every OFFLINE StatusEvent and for none of the ONLINE ones
synchronously (records for an online gateway arrive only via a matching
ConfigResponse); under the wildcard filter one emission occurs per sink of
a response, so emission count is not one-to-one with input events. -/
theorem C6_amended_record_emission (self : MultiMessageMqttObserver)
    (event : StatusEvent) (response : ConfigResponse) :
    (event.state = GatewayState.offline →
        (on_status_received true event).gw_status_queue.length = 1)
      ∧ (event.state = GatewayState.online →
        (on_status_received true event).gw_status_queue.length = 0)
      ∧ (self.network_id = NetworkFilter.wildcard →
        (on_response_cb self true response).gw_status_queue.length
          = response.configs.length) := by
  refine ⟨fun h => ?_, fun h => ?_, fun hm => ?_⟩
  · simp [on_status_received, h]
  · simp [on_status_received, h, Emissions.empty]
  · simp [on_response_cb, hm, processConfigs_wildcard]

/-- C6 amended at concrete inputs: one record for an OFFLINE event, three
records for the three-sink response under the wildcard. -/
theorem C6_amended_record_emission_witness :
    (on_status_received true
          { gw_id := "g1", state := GatewayState.offline }
        ).gw_status_queue.length = 1
      ∧ (on_response_cb wildcardObserver true sampleResponse
        ).gw_status_queue.length = 3 :=
  ⟨(C6_amended_record_emission wildcardObserver
      { gw_id := "g1", state := GatewayState.offline } sampleResponse).1 rfl,
    (C6_amended_record_emission wildcardObserver
      { gw_id := "g1", state := GatewayState.offline } sampleResponse).2.2 rfl⟩

/-- Claim C7: the status handler is stateless: the same ONLINE event
delivered twice yields two identical ConfigRequests, and in any trace the
effect added by a delivery is a function of that message alone, independent
of the previously delivered messages. -/
theorem C7_stateless_no_dedup (self : MultiMessageMqttObserver)
    (event : StatusEvent) (h : event.state = GatewayState.online) :
    (runTrace self true [InMessage.status event, InMessage.status event]
        ).rx_queue
        = [{ gw_id := event.gw_id }, { gw_id := event.gw_id }]
      ∧ ∀ (prev : List InMessage) (msg : InMessage),
        runTrace self true (prev ++ [msg])
          = (runTrace self true prev).append (handleMessage self true msg) := by
  constructor
  · simp [runTrace, handleMessage, on_status_received, h, Emissions.append,
      Emissions.empty]
  · intro prev msg
    exact runTrace_snoc self true prev msg

/-- C7 at a concrete ONLINE event delivered twice. -/
theorem C7_stateless_no_dedup_witness :
    (runTrace kpiObserver true
          [InMessage.status { gw_id := "gw1", state := GatewayState.online },
            InMessage.status { gw_id := "gw1", state := GatewayState.online }]
        ).rx_queue
      = [{ gw_id := "gw1" }, { gw_id := "gw1" }] :=
  (C7_stateless_no_dedup kpiObserver
    { gw_id := "gw1", state := GatewayState.online } rfl).1

/-- Claim C8: with a storage queue wired, a data message delivered after the
gate is set is forwarded unchanged to the storage queue, with nothing else
emitted. -/
theorem C8_data_forward_unchanged (self : MultiMessageMqttObserver)
    (h : self.has_storage_queue = true) (payload : DataMessage) :
    on_data_received self true payload =
      { Emissions.empty with storage_queue := [payload] } := by
  simp [on_data_received, h]

/-- C8 at a concrete payload. -/
theorem C8_data_forward_unchanged_witness :
    on_data_received kpiObserver true "payload-bytes" =
      { Emissions.empty with storage_queue := ["payload-bytes"] } :=
  C8_data_forward_unchanged kpiObserver rfl "payload-bytes"

/-- Claim C9: the gate starts unset and is monotone: from any state with the
gate set, no sequence of steps (stop and deliveries included) unsets it, and
every single step preserves it, so every later handler invocation observes
it as set. -/
theorem C9_gate_monotone (self : MultiMessageMqttObserver) (s : SystemState)
    (h : s.gateSet = true) (steps : List SystemStep) :
    initialState.gateSet = false
      ∧ (runSystem self s steps).gateSet = true
      ∧ ∀ step, (stepSystem self s step).gateSet = true := by
  refine ⟨rfl, ?_, fun step => stepSystem_gate_mono self s step h⟩
  induction steps generalizing s with
  | nil => exact h
  | cons st rest ih =>
    exact ih (stepSystem self s st) (stepSystem_gate_mono self s st h)

/-- C9 at a concrete run: stop followed by a delivery leaves the gate set. -/
theorem C9_gate_monotone_witness :
    (runSystem kpiObserver { gateSet := true, emitted := Emissions.empty }
        [SystemStep.stop,
          SystemStep.deliver (InMessage.status
            { gw_id := "g", state := GatewayState.online })]).gateSet = true :=
  (C9_gate_monotone kpiObserver { gateSet := true, emitted := Emissions.empty }
    rfl
    [SystemStep.stop,
      SystemStep.deliver (InMessage.status
        { gw_id := "g", state := GatewayState.online })]).2.1

/-- Claim C10: constructed without a storage queue, the data handler after
the gate is set emits nothing at all: no queue put and no log entry. -/
theorem C10_no_storage_silent_drop (self : MultiMessageMqttObserver)
    (h : self.has_storage_queue = false) (payload : DataMessage) :
    on_data_received self true payload = Emissions.empty := by
  simp [on_data_received, h]

/-- C10 at a concrete payload and an observer without a storage queue. -/
theorem C10_no_storage_silent_drop_witness :
    on_data_received
        { network_id := NetworkFilter.specific 2, has_storage_queue := false }
        true "payload-bytes" = Emissions.empty :=
  C10_no_storage_silent_drop
    { network_id := NetworkFilter.specific 2, has_storage_queue := false }
    rfl "payload-bytes"
